import Mathlib

/-
Verification of the SCOA_DASH data-collector core: a shallow embedding of
the arbitrage calculator (src/arbitrage_calculator.py), the base exchange
adapter valuation logic (src/exchanges/base_exchange.py), the Binance
balance adapter (src/exchanges/binance_exchange.py) and the collection
orchestrator (src/data_collector.py), with theorems settling the stated
behavioural claims.  Python floats are modelled as rationals, Python
datetimes as an explicit record, dicts as association lists, and fallible
calls as Except values.
-/

namespace SCOA

/-- Model of a Python naive datetime value: year, month, day, hour,
minute, second, microsecond. -/
structure DateTime where
  year : Int
  month : Int
  day : Int
  hour : Int
  minute : Int
  second : Int
  microsecond : Int
deriving DecidableEq

/-- Calendar date of a datetime, the result of Python datetime.date():
the (year, month, day) triple. -/
def DateTime.dateOf (t : DateTime) : Int × Int × Int :=
  (t.year, t.month, t.day)

/-- Gregorian leap-year test, as in Python's calendar rules. -/
def isLeapYear (y : Int) : Bool :=
  y % 4 == 0 && (y % 100 != 0 || y % 400 == 0)

/-- Days in each month of a non-leap year, January first. -/
def monthLengths : List Int :=
  [31, 28, 31, 30, 31, 30, 31, 31, 30, 31, 30, 31]

/-- Number of days in a given month, with the February leap adjustment;
this is the upper bound Python datetime.replace enforces on the day field. -/
def daysInMonth (y m : Int) : Int :=
  let base := monthLengths.getD (m - 1).toNat 31
  if m == 2 && isLeapYear y then 29 else base

/-- Cumulative days before each month in a non-leap year. -/
def daysBeforeMonthList : List Int :=
  [0, 31, 59, 90, 120, 151, 181, 212, 243, 273, 304, 334]

/-- Days elapsed before the first day of month m in year y. -/
def daysBeforeMonth (y m : Int) : Int :=
  daysBeforeMonthList.getD (m - 1).toNat 0 +
    (if 2 < m && isLeapYear y then 1 else 0)

/-- Proleptic Gregorian ordinal of a (year, month, day), mirroring the
ordinal Python datetime uses internally for date arithmetic. -/
def ymd2ord (y m d : Int) : Int :=
  365 * (y - 1) + Int.fdiv (y - 1) 4 - Int.fdiv (y - 1) 100 +
    Int.fdiv (y - 1) 400 + daysBeforeMonth y m + d

/-- A datetime as a count of microseconds, used to model datetime
comparison and subtraction. -/
def DateTime.toMicros (t : DateTime) : Int :=
  ((ymd2ord t.year t.month t.day) * 86400 + t.hour * 3600 +
     t.minute * 60 + t.second) * 1000000 + t.microsecond

/-- Datetime comparison: Python compares datetimes chronologically. -/
def dtLe (a b : DateTime) : Bool :=
  a.toMicros ≤ b.toMicros

/-- The .days attribute of the Python timedelta (a - b): floor of the
difference measured in whole days. -/
def timedeltaDays (a b : DateTime) : Int :=
  Int.fdiv (a.toMicros - b.toMicros) 86400000000

/-- Python datetime.replace with a new hour field: raises ValueError
unless the hour is in 0..23. -/
def replaceHour (t : DateTime) (h : Int) : Except String DateTime :=
  if 0 ≤ h ∧ h ≤ 23 then .ok { t with hour := h }
  else .error "hour must be in 0..23"

/-- Python datetime.replace with a new day field: raises ValueError
unless the day is within the month. -/
def replaceDay (t : DateTime) (d : Int) : Except String DateTime :=
  if 1 ≤ d ∧ d ≤ daysInMonth t.year t.month then .ok { t with day := d }
  else .error "day is out of range for month"

/-- Python str.upper, on the character list of the string. -/
def strUpper (s : String) : String := ⟨s.data.map Char.toUpper⟩

/-- Worker for strReplace: non-overlapping left-to-right replacement of a
pattern, with a fuel argument bounding the scan; the pattern is always
non-empty at the call sites. -/
def strReplaceAux (pat repl : List Char) : Nat → List Char → List Char
  | _, [] => []
  | 0, cs => cs
  | fuel + 1, c :: cs =>
    if List.isPrefixOf pat (c :: cs) then
      repl ++ strReplaceAux pat repl fuel (List.drop (pat.length - 1) cs)
    else c :: strReplaceAux pat repl fuel cs

/-- Python str.replace for a non-empty pattern: replace every
non-overlapping occurrence, scanning left to right. -/
def strReplace (s pat repl : String) : String :=
  ⟨strReplaceAux pat.data repl.data s.data.length s.data⟩

/-- Python str.endswith. -/
def strEndsWith (s suffix : String) : Bool :=
  List.isSuffixOf suffix.data s.data

/-- Lookup in a Python dict modelled as an association list, with a
default value, as dict.get(key, default). -/
def dictGet {α : Type} (ps : List (String × α)) (k : String) (d : α) : α :=
  (ps.lookup k).getD d

/-- Dict assignment d[k] = v: overwrite an existing key in place, else
append the new binding, preserving Python dict insertion order. -/
def dictSet {α : Type} (ps : List (String × α)) (k : String) (v : α) :
    List (String × α) :=
  if (ps.lookup k).isSome then
    ps.map (fun p => if p.1 = k then (k, v) else p)
  else ps ++ [(k, v)]

/-- The ArbitrageOpportunity dataclass of src/arbitrage_calculator.py. -/
structure ArbitrageOpportunity where
  timestamp : DateTime
  binance_price : ℚ
  htx_price : ℚ
  price_diff : ℚ
  price_diff_percent : ℚ
  suggested_action : String
  potential_profit_percent : ℚ
deriving DecidableEq

/-- The PnLData dataclass of src/arbitrage_calculator.py. -/
structure PnLData where
  timestamp : DateTime
  total_value_usdt : ℚ
  binance_balance_usdt : ℚ
  htx_balance_usdt : ℚ
  daily_pnl : ℚ
  daily_pnl_percent : ℚ
  cumulative_pnl : ℚ
  cumulative_pnl_percent : ℚ
deriving DecidableEq

/-- The mutable state of an ArbitrageCalculator instance. -/
structure CalcState where
  initial_capital : ℚ
  transaction_fee : ℚ
  min_profit_threshold : ℚ
  price_history : List ArbitrageOpportunity
  pnl_history : List PnLData
deriving DecidableEq

/-- ArbitrageCalculator.__init__: the transaction fee (0.001) and the
minimum profit threshold (0.05) are fixed in the constructor body;
initial_capital is the constructor argument, defaulting to 10000. -/
def mkArbitrageCalculator (initial_capital : ℚ) : CalcState :=
  { initial_capital := initial_capital
    transaction_fee := 1 / 1000
    min_profit_threshold := 1 / 20
    price_history := []
    pnl_history := [] }

/-- ArbitrageCalculator.calculate_arbitrage_opportunity: computes the
spread, the spread percent against the midpoint, the fee-adjusted
potential profit clamped at zero, and the suggested action; appends the
opportunity to price_history. -/
def calculate_arbitrage_opportunity (st : CalcState)
    (binance_price htx_price : ℚ) (timestamp : DateTime) :
    ArbitrageOpportunity × CalcState :=
  let price_diff := binance_price - htx_price
  let price_diff_percent := price_diff / ((binance_price + htx_price) / 2) * 100
  let potential_profit := |price_diff_percent| - st.transaction_fee * 2 * 100
  let suggested_action :=
    if st.min_profit_threshold < price_diff_percent then "buy_htx_sell_binance"
    else if price_diff_percent < -st.min_profit_threshold then "buy_binance_sell_htx"
    else "no_action"
  let opp : ArbitrageOpportunity :=
    { timestamp := timestamp
      binance_price := binance_price
      htx_price := htx_price
      price_diff := price_diff
      price_diff_percent := price_diff_percent
      suggested_action := suggested_action
      potential_profit_percent := max 0 potential_profit }
  (opp, { st with price_history := st.price_history ++ [opp] })

/-- ArbitrageCalculator._calculate_total_value_usdt: sums the USDT value
of a balance dict, skipping non-positive amounts, taking USDT at face
value, FDUSD and USDC at their looked-up price (default 1.0), and
ignoring every other asset. -/
def calculate_total_value_usdt :
    List (String × ℚ) → List (String × ℚ) → ℚ
  | [], _ => 0
  | (asset, amount) :: rest, prices =>
    (if amount ≤ 0 then 0
     else if strUpper asset = "USDT" then amount
     else if strUpper asset = "FDUSD" then amount * dictGet prices "fdusd_usdt" 1
     else if strUpper asset = "USDC" then amount * dictGet prices "usdc_usdt" 1
     else 0) + calculate_total_value_usdt rest prices

/-- ArbitrageCalculator.calculate_pnl: totals both exchanges, derives
cumulative PnL against initial capital, and sets the daily PnL only when
the timestamp's calendar date differs from the date of the most recent
stored entry; appends the snapshot to pnl_history. -/
def calculate_pnl (st : CalcState)
    (binance_balance htx_balance current_prices : List (String × ℚ))
    (timestamp : DateTime) : PnLData × CalcState :=
  let binance_total := calculate_total_value_usdt binance_balance current_prices
  let htx_total := calculate_total_value_usdt htx_balance current_prices
  let total_value := binance_total + htx_total
  let cumulative_pnl := total_value - st.initial_capital
  let cumulative_pnl_percent := cumulative_pnl / st.initial_capital * 100
  let daily : ℚ × ℚ :=
    match st.pnl_history.getLast? with
    | some last_pnl =>
      if timestamp.dateOf ≠ last_pnl.timestamp.dateOf then
        (total_value - last_pnl.total_value_usdt,
         (total_value - last_pnl.total_value_usdt) / last_pnl.total_value_usdt * 100)
      else (0, 0)
    | none => (0, 0)
  let pnl_data : PnLData :=
    { timestamp := timestamp
      total_value_usdt := total_value
      binance_balance_usdt := binance_total
      htx_balance_usdt := htx_total
      daily_pnl := daily.1
      daily_pnl_percent := daily.2
      cumulative_pnl := cumulative_pnl
      cumulative_pnl_percent := cumulative_pnl_percent }
  (pnl_data, { st with pnl_history := st.pnl_history ++ [pnl_data] })

/-- ArbitrageCalculator.get_recent_opportunities: truncates now to
midnight, then calls datetime.replace with hour = 0 - hours (raising for
out-of-range hours), and filters the price history at the cutoff. -/
def get_recent_opportunities (st : CalcState) (now : DateTime)
    (hours : Int) : Except String (List ArbitrageOpportunity) :=
  let c1 : DateTime := { now with hour := 0, minute := 0, second := 0, microsecond := 0 }
  match replaceHour c1 (c1.hour - hours) with
  | .error e => .error e
  | .ok cutoff => .ok (st.price_history.filter (fun opp => dtLe cutoff opp.timestamp))

/-- ArbitrageCalculator.get_recent_pnl: truncates now to midnight, then
calls datetime.replace with day = day - days (raising for out-of-range
days), and filters the PnL history at the cutoff. -/
def get_recent_pnl (st : CalcState) (now : DateTime)
    (days : Int) : Except String (List PnLData) :=
  let c1 : DateTime := { now with hour := 0, minute := 0, second := 0, microsecond := 0 }
  match replaceDay c1 (c1.day - days) with
  | .error e => .error e
  | .ok cutoff => .ok (st.pnl_history.filter (fun pnl => dtLe cutoff pnl.timestamp))

/-- The running maximum / maximum drawdown loop of
ArbitrageCalculator.get_performance_stats: tracks the running maximum
total value (seeded with the initial capital) and the largest
peak-to-trough percent decline seen so far. -/
def maxDrawdownLoop : List PnLData → ℚ → ℚ → ℚ
  | [], _, md => md
  | pnl :: rest, max_value, md =>
    let mv := max max_value pnl.total_value_usdt
    let drawdown := (mv - pnl.total_value_usdt) / mv * 100
    maxDrawdownLoop rest mv (max md drawdown)

/-- The daily_returns list of get_performance_stats: period-over-period
relative change between consecutive PnL history entries. -/
def dailyReturnsList : List PnLData → List ℚ
  | a :: b :: rest =>
    (b.total_value_usdt - a.total_value_usdt) / a.total_value_usdt ::
      dailyReturnsList (b :: rest)
  | _ => []

/-- Arithmetic mean, as statistics.mean. -/
def meanQ (l : List ℚ) : ℚ :=
  l.sum / (l.length : ℚ)

/-- Sample variance (the square of statistics.stdev). -/
def sampleVar (l : List ℚ) : ℚ :=
  ((l.map (fun x => (x - meanQ l) ^ 2)).sum) / ((l.length : ℚ) - 1)

/-- The annualized standard deviation of get_performance_stats:
statistics.stdev times the square root of 365 when at least two returns
exist, else 0. -/
noncomputable def annualizedStd (l : List ℚ) : ℝ :=
  if 1 < l.length then Real.sqrt ((sampleVar l : ℚ) : ℝ) * Real.sqrt 365 else 0

/-- The simplified Sharpe ratio of get_performance_stats: annualized mean
return over annualized standard deviation when the deviation is positive,
0 when there are no returns or the deviation is not positive. -/
noncomputable def sharpe_ratio_of (l : List ℚ) : ℝ :=
  if l = [] then 0
  else
    let ret_std := annualizedStd l
    if 0 < ret_std then ((meanQ l * 365 : ℚ) : ℝ) / ret_std else 0

/-- The statistics record returned by get_performance_stats. -/
structure PerfStats where
  total_return_percent : ℚ
  annualized_return_percent : ℚ
  max_drawdown_percent : ℚ
  sharpe_ratio : ℝ
  days_running : Int
  current_value_usdt : ℚ

/-- ArbitrageCalculator.get_performance_stats: none (the empty dict) for
an empty PnL history; otherwise the latest entry's cumulative figures,
the max-drawdown loop seeded at the initial capital, the prorated
annualized return, and the simplified Sharpe ratio over consecutive
period returns. -/
noncomputable def get_performance_stats (st : CalcState) (now : DateTime) :
    Option PerfStats :=
  match st.pnl_history with
  | [] => none
  | first :: rest =>
    let latest := rest.getLastD first
    let max_drawdown := maxDrawdownLoop (first :: rest) st.initial_capital 0
    let days_running := max 1 (timedeltaDays now first.timestamp)
    let annualized_return := latest.cumulative_pnl_percent / (days_running : ℚ) * 365
    let daily_returns := dailyReturnsList (first :: rest)
    some
      { total_return_percent := latest.cumulative_pnl_percent
        annualized_return_percent := annualized_return
        max_drawdown_percent := max_drawdown
        sharpe_ratio := sharpe_ratio_of daily_returns
        days_running := days_running
        current_value_usdt := latest.total_value_usdt }

/-- The Balance dataclass of src/exchanges/base_exchange.py: a plain
record; total is an independent field, not derived from free + locked. -/
structure Balance where
  asset : String
  free : ℚ
  locked : ℚ
  total : ℚ
  timestamp : DateTime
deriving DecidableEq

/-- The Trade dataclass of src/exchanges/base_exchange.py. -/
structure Trade where
  symbol : String
  side : String
  amount : ℚ
  price : ℚ
  fee : ℚ
  fee_asset : String
  timestamp : DateTime
  trade_id : String
deriving DecidableEq

/-- The MarketData dataclass of src/exchanges/base_exchange.py. -/
structure MarketData where
  symbol : String
  price : ℚ
  volume_24h : ℚ
  change_24h : ℚ
  change_24h_percent : ℚ
  high_24h : ℚ
  low_24h : ℚ
  timestamp : DateTime
deriving DecidableEq

/-- One entry of the per-asset breakdown built by
BaseExchange.get_portfolio_value. -/
structure PortfolioAsset where
  amount : ℚ
  value_usdt : ℚ
  price : ℚ
deriving DecidableEq

/-- The portfolio value dict returned by
BaseExchange.get_portfolio_value. -/
structure PortfolioValue where
  total_value_usdt : ℚ
  assets : List (String × PortfolioAsset)
  timestamp : DateTime
deriving DecidableEq

/-- The price-table construction of BaseExchange.get_portfolio_value: for
every market symbol that upper-cases to a string ending in USDT, map the
symbol with all USDT occurrences removed to its price. -/
def buildPrices (market_data : List MarketData) : List (String × ℚ) :=
  market_data.foldl
    (fun prices data =>
      let symbol := strUpper data.symbol
      if strEndsWith symbol "USDT" then
        dictSet prices (strReplace symbol "USDT" "") data.price
      else prices)
    []

/-- The balance loop of BaseExchange.get_portfolio_value: for every
balance with positive total, value USDT at face value, a priced asset at
total times its price, an unpriced asset at 0; accumulate the total and
the per-asset breakdown dict. -/
def portfolioLoop (prices : List (String × ℚ)) :
    List Balance → ℚ → List (String × PortfolioAsset) →
      ℚ × List (String × PortfolioAsset)
  | [], total_value, asset_values => (total_value, asset_values)
  | b :: rest, total_value, asset_values =>
    if 0 < b.total then
      let asset := strUpper b.asset
      let value :=
        if asset = "USDT" then b.total
        else
          match prices.lookup asset with
          | some p => b.total * p
          | none => 0
      portfolioLoop prices rest (total_value + value)
        (dictSet asset_values asset
          { amount := b.total, value_usdt := value,
            price := dictGet prices asset 0 })
    else portfolioLoop prices rest total_value asset_values

/-- BaseExchange.get_portfolio_value, as a function of the balances and
market data its two inner calls return. -/
def get_portfolio_value (balances : List Balance)
    (market_data : List MarketData) (now : DateTime) : PortfolioValue :=
  let prices := buildPrices market_data
  let acc := portfolioLoop prices balances 0 []
  { total_value_usdt := acc.1, assets := acc.2, timestamp := now }

/-- The shape of a ccxt fetch_balance response as consumed by
BinanceExchange.get_account_balance: the total, free and used dicts. -/
structure BalanceResponse where
  total : List (String × ℚ)
  free : List (String × ℚ)
  used : List (String × ℚ)
deriving DecidableEq

/-- BinanceExchange.get_account_balance, as a function of the outcome of
the underlying fetch_balance call: any exception is caught and an empty
list returned; on success, one Balance per asset whose total is positive,
with free and used defaulting to 0 and total taken verbatim from the
response's total dict. -/
def get_account_balance (fetched : Except Unit BalanceResponse)
    (now : DateTime) : List Balance :=
  match fetched with
  | .error _ => []
  | .ok resp =>
    resp.total.filterMap (fun p =>
      if 0 < p.2 then
        some { asset := p.1
               free := dictGet resp.free p.1 0
               locked := dictGet resp.used p.1 0
               total := p.2
               timestamp := now }
      else none)

/-- DataCollector._collect_balance_data, as a function of the adapter
fetch outcome and the database write outcome: success means a non-empty
balance list was fetched and written without an exception. -/
def collectBalanceData (fetched : Except Unit (List Balance))
    (dbWrite : Except Unit Unit) : Bool :=
  match fetched with
  | .error _ => false
  | .ok balances =>
    if balances.isEmpty then false
    else match dbWrite with
      | .ok _ => true
      | .error _ => false

/-- DataCollector._collect_market_data: success means a non-empty market
data list was fetched and written without an exception. -/
def collectMarketData (fetched : Except Unit (List MarketData))
    (dbWrite : Except Unit Unit) : Bool :=
  match fetched with
  | .error _ => false
  | .ok market_data =>
    if market_data.isEmpty then false
    else match dbWrite with
      | .ok _ => true
      | .error _ => false

/-- DataCollector._collect_trade_data: success means a non-empty trade
list was fetched and written without an exception. -/
def collectTradeData (fetched : Except Unit (List Trade))
    (dbWrite : Except Unit Unit) : Bool :=
  match fetched with
  | .error _ => false
  | .ok trades =>
    if trades.isEmpty then false
    else match dbWrite with
      | .ok _ => true
      | .error _ => false

/-- DataCollector._collect_portfolio_data: success means the portfolio
value was fetched, its total_value_usdt is strictly positive, and the
write raised no exception (the returned dict itself is always truthy). -/
def collectPortfolioData (fetched : Except Unit PortfolioValue)
    (dbWrite : Except Unit Unit) : Bool :=
  match fetched with
  | .error _ => false
  | .ok pv =>
    if 0 < pv.total_value_usdt then
      match dbWrite with
      | .ok _ => true
      | .error _ => false
    else false

/-- DataCollector._collect_exchange_data: a disabled exchange fails
outright; otherwise the four sub-collections run and the task returns
True when all four succeeded, else the test that more than zero
succeeded. -/
def collectExchangeData (enabled : Bool)
    (balFetch : Except Unit (List Balance))
    (mktFetch : Except Unit (List MarketData))
    (trdFetch : Except Unit (List Trade))
    (pfFetch : Except Unit PortfolioValue)
    (dbBal dbMkt dbTrd dbPf : Except Unit Unit) : Bool :=
  if !enabled then false
  else
    let results :=
      [collectBalanceData balFetch dbBal,
       collectMarketData mktFetch dbMkt,
       collectTradeData trdFetch dbTrd,
       collectPortfolioData pfFetch dbPf]
    let successful := results.count true
    if successful = results.length then true
    else decide (0 < successful)

/-- The completed/failed counters of DataCollector.stats. -/
structure Stats where
  collections_completed : Nat
  collections_failed : Nat
deriving DecidableEq

/-- The counter update of DataCollector._collect_data_round: completed
grows by the number of per-exchange tasks that returned True, failed by
the number of remaining tasks. -/
def collectDataRound (stats : Stats) (results : List Bool) : Stats :=
  let successful := results.count true
  { stats with
      collections_completed := stats.collections_completed + successful
      collections_failed :=
        stats.collections_failed + (results.length - successful) }

/-- The configuration options the specification recognizes for the
orchestrator and calculator. -/
structure Config where
  collection_interval_minutes : Int
  concurrent_requests : Int
  health_check_interval : Int
  initial_capital : ℚ
  transaction_fee_rate : ℚ
  arbitrage_threshold : ℚ
deriving DecidableEq

/-- The state DataCollector.__init__ builds. -/
structure DataCollectorState where
  collection_interval : Int
  concurrent_requests : Int
  arbitrage_calculator : CalcState
  stats : Stats
deriving DecidableEq

/-- DataCollector.__init__: the collection interval and concurrency come
from the configuration, but the ArbitrageCalculator is constructed with
no arguments, so it carries the constructor defaults (initial capital
10000, fee 0.001, threshold 0.05) whatever the configuration says. -/
def dataCollectorInit (config : Config) : DataCollectorState :=
  { collection_interval := config.collection_interval_minutes * 60
    concurrent_requests := config.concurrent_requests
    arbitrage_calculator := mkArbitrageCalculator 10000
    stats := { collections_completed := 0, collections_failed := 0 } }

/-- A fixed sample timestamp used for concrete evaluations. -/
def epoch : DateTime := ⟨1970, 1, 1, 0, 0, 0, 0⟩

/-- C1: for an active (enabled) exchange, the per-exchange collection
task returns success exactly when at least one of its four
sub-collections (balances, market data, trades, portfolio value)
succeeded, and the orchestrator's round counters count each task result
of True as a round success and every other task as a round failure. -/
theorem exchange_round_success_iff
    (balFetch : Except Unit (List Balance))
    (mktFetch : Except Unit (List MarketData))
    (trdFetch : Except Unit (List Trade))
    (pfFetch : Except Unit PortfolioValue)
    (dbBal dbMkt dbTrd dbPf : Except Unit Unit)
    (stats : Stats) (results : List Bool) :
    (collectExchangeData true balFetch mktFetch trdFetch pfFetch
        dbBal dbMkt dbTrd dbPf = true ↔
      (collectBalanceData balFetch dbBal = true ∨
       collectMarketData mktFetch dbMkt = true ∨
       collectTradeData trdFetch dbTrd = true ∨
       collectPortfolioData pfFetch dbPf = true)) ∧
    (collectDataRound stats results).collections_completed =
      stats.collections_completed + results.count true ∧
    (collectDataRound stats results).collections_failed =
      stats.collections_failed + (results.length - results.count true) := by
  refine ⟨?_, rfl, rfl⟩
  simp only [collectExchangeData]
  cases collectBalanceData balFetch dbBal <;>
    cases collectMarketData mktFetch dbMkt <;>
      cases collectTradeData trdFetch dbTrd <;>
        cases collectPortfolioData pfFetch dbPf <;> decide

/-- C10: each sub-collection succeeds only when its adapter call raised
no error and returned non-empty data (for the portfolio sub-collection, a
strictly positive total value), so an exchange whose four calls all
complete without error but yield empty balances, empty market data,
empty trades and a zero-valued portfolio is counted as a round failure. -/
theorem sub_collection_success_needs_data :
    (∀ db, collectBalanceData (.error ()) db = false) ∧
    (∀ bs db, collectBalanceData (.ok bs) db = true → bs ≠ []) ∧
    (∀ db, collectMarketData (.error ()) db = false) ∧
    (∀ md db, collectMarketData (.ok md) db = true → md ≠ []) ∧
    (∀ db, collectTradeData (.error ()) db = false) ∧
    (∀ ts db, collectTradeData (.ok ts) db = true → ts ≠ []) ∧
    (∀ db, collectPortfolioData (.error ()) db = false) ∧
    (∀ pv db, collectPortfolioData (.ok pv) db = true →
      0 < pv.total_value_usdt) ∧
    (∀ pv d1 d2 d3 d4, pv.total_value_usdt = 0 →
      collectExchangeData true (.ok []) (.ok []) (.ok []) (.ok pv)
        d1 d2 d3 d4 = false) := by
  refine ⟨fun db => rfl, ?_, fun db => rfl, ?_, fun db => rfl, ?_,
    fun db => rfl, ?_, ?_⟩
  · intro bs db h
    cases bs with
    | nil => simp [collectBalanceData] at h
    | cons a l => simp
  · intro md db h
    cases md with
    | nil => simp [collectMarketData] at h
    | cons a l => simp
  · intro ts db h
    cases ts with
    | nil => simp [collectTradeData] at h
    | cons a l => simp
  · intro pv db h
    simp only [collectPortfolioData] at h
    by_cases hpv : 0 < pv.total_value_usdt
    · exact hpv
    · simp [hpv] at h
  · intro pv d1 d2 d3 d4 hzero
    simp [collectExchangeData, collectBalanceData, collectMarketData,
      collectTradeData, collectPortfolioData, hzero]

/-- A concrete zero-valued portfolio snapshot. -/
def pvZero : PortfolioValue := { total_value_usdt := 0, assets := [], timestamp := epoch }

/-- Witness for C10: an exchange whose four calls all complete without
error but return empty data and a zero-valued portfolio makes the
per-exchange task fail. -/
theorem sub_collection_success_needs_data_witness :
    collectExchangeData true (.ok []) (.ok []) (.ok []) (.ok pvZero)
      (.ok ()) (.ok ()) (.ok ()) (.ok ()) = false :=
  sub_collection_success_needs_data.2.2.2.2.2.2.2.2 pvZero
    (.ok ()) (.ok ()) (.ok ()) (.ok ()) rfl

/-- C2: calculate_pnl reports a daily PnL of 0 whenever the history is
empty or the new timestamp falls on the same calendar date as the most
recent stored entry, and reports the new total minus that most recent
entry's total whenever the calendar date differs. -/
theorem calculate_pnl_daily_boundary
    (st : CalcState) (bB bH prices : List (String × ℚ)) (t : DateTime) :
    (st.pnl_history = [] →
      (calculate_pnl st bB bH prices t).1.daily_pnl = 0) ∧
    (∀ last_pnl, st.pnl_history.getLast? = some last_pnl →
      (t.dateOf = last_pnl.timestamp.dateOf →
        (calculate_pnl st bB bH prices t).1.daily_pnl = 0) ∧
      (t.dateOf ≠ last_pnl.timestamp.dateOf →
        (calculate_pnl st bB bH prices t).1.daily_pnl =
          (calculate_total_value_usdt bB prices +
             calculate_total_value_usdt bH prices) -
            last_pnl.total_value_usdt)) := by
  constructor
  · intro h
    simp [calculate_pnl, h]
  · intro last_pnl h
    constructor
    · intro hd
      simp [calculate_pnl, h, hd]
    · intro hd
      simp [calculate_pnl, h, hd]

/-- A concrete PnL entry dated 1970-01-01 with total value 9000. -/
def pnlDay1 : PnLData :=
  { timestamp := epoch, total_value_usdt := 9000, binance_balance_usdt := 4500,
    htx_balance_usdt := 4500, daily_pnl := 0, daily_pnl_percent := 0,
    cumulative_pnl := -1000, cumulative_pnl_percent := -10 }

/-- Calculator state holding exactly the entry of 1970-01-01. -/
def stDay1 : CalcState :=
  { mkArbitrageCalculator 10000 with pnl_history := [pnlDay1] }

/-- Witness for C2: on the next calendar day the daily PnL equals the new
total minus the stored entry's total. -/
theorem calculate_pnl_daily_boundary_witness :
    (calculate_pnl stDay1 [("USDT", 9500)] [] [] ⟨1970, 1, 2, 8, 0, 0, 0⟩).1.daily_pnl =
      500 :=
  ((calculate_pnl_daily_boundary stDay1 [("USDT", 9500)] [] []
      ⟨1970, 1, 2, 8, 0, 0, 0⟩).2 pnlDay1 rfl).2 (by decide) |>.trans (by
    have h1 : strUpper "USDT" = "USDT" := by decide
    norm_num [calculate_total_value_usdt, h1, pnlDay1])

/-- C9 (amended): the orchestrator constructs its ArbitrageCalculator
with the constructor defaults, so for every configuration the initial
capital is 10000, the transaction fee 0.001 and the arbitrage threshold
0.05 — fixed constants, not configuration values. -/
theorem calculator_constants_fixed (config : Config) :
    (dataCollectorInit config).arbitrage_calculator =
      mkArbitrageCalculator 10000 ∧
    (dataCollectorInit config).arbitrage_calculator.initial_capital = 10000 ∧
    (dataCollectorInit config).arbitrage_calculator.transaction_fee = 1 / 1000 ∧
    (dataCollectorInit config).arbitrage_calculator.min_profit_threshold = 1 / 20 :=
  ⟨rfl, rfl, rfl, rfl⟩

/-- A sample configuration supplying initial capital 5000, fee 0.002 and
threshold 0.1. -/
def cfgSample : Config :=
  { collection_interval_minutes := 5, concurrent_requests := 5,
    health_check_interval := 60, initial_capital := 5000,
    transaction_fee_rate := 2 / 1000, arbitrage_threshold := 1 / 10 }

/-- Counterexample for C9: the calculator the orchestrator builds keeps
initial capital 10000, fee 0.001 and threshold 0.05 even though the
configuration supplies 5000, 0.002 and 0.1. -/
theorem calculator_ignores_config_counterexample :
    (dataCollectorInit cfgSample).arbitrage_calculator.initial_capital = 10000 ∧
    cfgSample.initial_capital = 5000 ∧
    (dataCollectorInit cfgSample).arbitrage_calculator.transaction_fee = 1 / 1000 ∧
    cfgSample.transaction_fee_rate = 2 / 1000 ∧
    (dataCollectorInit cfgSample).arbitrage_calculator.min_profit_threshold = 1 / 20 ∧
    cfgSample.arbitrage_threshold = 1 / 10 ∧
    (10000 : ℚ) ≠ 5000 ∧ (1 / 1000 : ℚ) ≠ 2 / 1000 ∧ (1 / 20 : ℚ) ≠ 1 / 10 := by
  refine ⟨rfl, rfl, rfl, rfl, rfl, rfl, ?_, ?_, ?_⟩ <;> norm_num

/-- C3: for positive input prices, calculate_arbitrage_opportunity
returns the spread binance minus htx, the spread percent against the
midpoint, the potential profit clamped at zero after twice the fee, and
the action that sells the expensive venue when the spread percent exceeds
the threshold in either direction, else no_action; in particular with the
default calculator (100.10, 100.00) sells the binance (100.10) venue with
profit clamped to 0, and (100, 100) yields no_action. -/
theorem calculate_arbitrage_opportunity_spec
    (st : CalcState) (bp hp : ℚ) (t : DateTime)
    (hb : 0 < bp) (hh : 0 < hp) (hthr : 0 ≤ st.min_profit_threshold) :
    ((calculate_arbitrage_opportunity st bp hp t).1.price_diff = bp - hp) ∧
    ((calculate_arbitrage_opportunity st bp hp t).1.price_diff_percent =
      (bp - hp) / ((bp + hp) / 2) * 100) ∧
    ((calculate_arbitrage_opportunity st bp hp t).1.potential_profit_percent =
      max 0 (|(bp - hp) / ((bp + hp) / 2) * 100| - 2 * st.transaction_fee * 100)) ∧
    (st.min_profit_threshold < (bp - hp) / ((bp + hp) / 2) * 100 →
      (calculate_arbitrage_opportunity st bp hp t).1.suggested_action =
        "buy_htx_sell_binance") ∧
    ((bp - hp) / ((bp + hp) / 2) * 100 < -st.min_profit_threshold →
      (calculate_arbitrage_opportunity st bp hp t).1.suggested_action =
        "buy_binance_sell_htx") ∧
    (-st.min_profit_threshold ≤ (bp - hp) / ((bp + hp) / 2) * 100 ∧
        (bp - hp) / ((bp + hp) / 2) * 100 ≤ st.min_profit_threshold →
      (calculate_arbitrage_opportunity st bp hp t).1.suggested_action =
        "no_action") ∧
    ((calculate_arbitrage_opportunity (mkArbitrageCalculator 10000)
        (1001 / 10) 100 t).1.suggested_action = "buy_htx_sell_binance") ∧
    ((calculate_arbitrage_opportunity (mkArbitrageCalculator 10000)
        (1001 / 10) 100 t).1.potential_profit_percent = 0) ∧
    ((calculate_arbitrage_opportunity (mkArbitrageCalculator 10000)
        100 100 t).1.suggested_action = "no_action") := by
  refine ⟨rfl, rfl, ?_, ?_, ?_, ?_, ?_, ?_, ?_⟩
  · simp only [calculate_arbitrage_opportunity]
    ring_nf
  · intro h
    simp only [calculate_arbitrage_opportunity]
    rw [if_pos h]
  · intro h
    have hns : ¬ st.min_profit_threshold < (bp - hp) / ((bp + hp) / 2) * 100 := by
      intro hc
      linarith
    simp only [calculate_arbitrage_opportunity]
    rw [if_neg hns, if_pos h]
  · intro h
    have h1 : ¬ st.min_profit_threshold < (bp - hp) / ((bp + hp) / 2) * 100 :=
      not_lt.mpr h.2
    have h2 : ¬ (bp - hp) / ((bp + hp) / 2) * 100 < -st.min_profit_threshold :=
      not_lt.mpr h.1
    simp only [calculate_arbitrage_opportunity]
    rw [if_neg h1, if_neg h2]
  · have hlt : (1 : ℚ) / 20 < ((1001 / 10 : ℚ) - 100) / (((1001 / 10 : ℚ) + 100) / 2) * 100 := by
      norm_num
    simp only [calculate_arbitrage_opportunity, mkArbitrageCalculator]
    rw [if_pos hlt]
  · have hle : |((1001 / 10 : ℚ) - 100) / (((1001 / 10 : ℚ) + 100) / 2) * 100| -
        (1 : ℚ) / 1000 * 2 * 100 ≤ 0 := by
      rw [abs_of_nonneg (by norm_num)]
      norm_num
    simp only [calculate_arbitrage_opportunity, mkArbitrageCalculator]
    exact max_eq_left hle
  · have h1 : ¬ (1 : ℚ) / 20 < ((100 : ℚ) - 100) / (((100 : ℚ) + 100) / 2) * 100 := by
      norm_num
    have h2 : ¬ ((100 : ℚ) - 100) / (((100 : ℚ) + 100) / 2) * 100 < -(1 / 20 : ℚ) := by
      norm_num
    simp only [calculate_arbitrage_opportunity, mkArbitrageCalculator]
    rw [if_neg h1, if_neg h2]

/-- Witness for C3: the spec instantiated at the default calculator and
prices 100.10 and 100.00. -/
theorem calculate_arbitrage_opportunity_spec_witness :
    ((calculate_arbitrage_opportunity (mkArbitrageCalculator 10000)
        (1001 / 10) 100 epoch).1.price_diff = (1001 / 10 : ℚ) - 100) ∧
    ((calculate_arbitrage_opportunity (mkArbitrageCalculator 10000)
        (1001 / 10) 100 epoch).1.price_diff_percent =
      ((1001 / 10 : ℚ) - 100) / (((1001 / 10 : ℚ) + 100) / 2) * 100) ∧
    ((calculate_arbitrage_opportunity (mkArbitrageCalculator 10000)
        (1001 / 10) 100 epoch).1.potential_profit_percent =
      max 0 (|((1001 / 10 : ℚ) - 100) / (((1001 / 10 : ℚ) + 100) / 2) * 100| -
        2 * (mkArbitrageCalculator 10000).transaction_fee * 100)) ∧
    ((calculate_arbitrage_opportunity (mkArbitrageCalculator 10000)
        (1001 / 10) 100 epoch).1.suggested_action = "buy_htx_sell_binance") ∧
    ((calculate_arbitrage_opportunity (mkArbitrageCalculator 10000)
        (1001 / 10) 100 epoch).1.potential_profit_percent = 0) ∧
    ((calculate_arbitrage_opportunity (mkArbitrageCalculator 10000)
        100 100 epoch).1.suggested_action = "no_action") := by
  have h := calculate_arbitrage_opportunity_spec (mkArbitrageCalculator 10000)
    (1001 / 10) 100 epoch (by norm_num) (by norm_num)
    (by norm_num [mkArbitrageCalculator])
  exact ⟨h.1, h.2.1, h.2.2.1, h.2.2.2.2.2.2.1, h.2.2.2.2.2.2.2.1, h.2.2.2.2.2.2.2.2⟩

/-- C4: get_recent_opportunities raises ValueError for every positive
hours argument (it calls datetime.replace with hour = 0 - hours), and
get_recent_pnl raises for the default days = 30 when called on the 12th
of a month (datetime.replace with day = 12 - 30). -/
theorem recent_queries_raise_value_error :
    (∀ (st : CalcState) (now : DateTime) (hours : Nat),
      get_recent_opportunities st now ((hours : Int) + 1) =
        .error "hour must be in 0..23") ∧
    (∀ st : CalcState,
      get_recent_pnl st ⟨2026, 10, 12, 9, 30, 0, 0⟩ 30 =
        .error "day is out of range for month") := by
  constructor
  · intro st now hours
    have hcond : ¬ ((0 : Int) ≤ 0 - ((hours : Int) + 1) ∧
        (0 : Int) - ((hours : Int) + 1) ≤ 23) := by
      intro hc
      omega
    simp only [get_recent_opportunities, replaceHour]
    rw [if_neg hcond]
  · intro st
    have hcond : ¬ ((1 : Int) ≤ 12 - 30 ∧
        (12 : Int) - 30 ≤ daysInMonth 2026 10) := by
      intro hc
      omega
    simp only [get_recent_pnl, replaceDay]
    rw [if_neg hcond]

/-- A ticker snapshot carrying only a symbol and a price, the two fields
the portfolio valuer reads. -/
def mkTicker (symbol : String) (price : ℚ) (t : DateTime) : MarketData :=
  { symbol := symbol, price := price, volume_24h := 0, change_24h := 0,
    change_24h_percent := 0, high_24h := 0, low_24h := 0, timestamp := t }

/-- Counterexample for C5: on a balance holding 10 FDUSD with no price
data, the calculator's valuation (default 1.0 per FDUSD) gives 10 while
the base adapter's portfolio valuation (default 0.0 for an unpriced
asset) gives 0. -/
theorem calc_vs_portfolio_valuer_counterexample :
    calculate_total_value_usdt [("FDUSD", 10)] [] = 10 ∧
    (get_portfolio_value
        [{ asset := "FDUSD", free := 10, locked := 0, total := 10,
           timestamp := epoch }] [] epoch).total_value_usdt = 0 ∧
    (10 : ℚ) ≠ 0 := by
  have h1 : strUpper "FDUSD" = "FDUSD" := by decide
  have h2 : ¬ (("FDUSD" : String) = "USDT") := by decide
  refine ⟨?_, ?_, by norm_num⟩
  · norm_num [calculate_total_value_usdt, h1, h2, dictGet]
  · norm_num [get_portfolio_value, buildPrices, portfolioLoop, h1, h2, dictGet]

/-- The contribution of one balance entry under the fixed stablecoin
price tables of the amended C5 statement; helper for the induction. -/
lemma portfolioLoop_total_eq (pf pu : ℚ) (t : DateTime) :
    ∀ (bal : List (String × ℚ)) (total : ℚ)
      (assets : List (String × PortfolioAsset)),
      (∀ p ∈ bal, strUpper p.1 = "USDT" ∨ strUpper p.1 = "FDUSD" ∨
        strUpper p.1 = "USDC") →
      (portfolioLoop [("FDUSD", pf), ("USDC", pu)]
          (bal.map (fun p =>
            { asset := p.1, free := p.2, locked := 0, total := p.2,
              timestamp := t }))
          total assets).1 =
        total + calculate_total_value_usdt bal
          [("fdusd_usdt", pf), ("usdc_usdt", pu)]
  | [], total, assets, _ => by
    simp [portfolioLoop, calculate_total_value_usdt]
  | (a, amt) :: rest, total, assets, h => by
    have hrest := fun p hp => h p (List.mem_cons_of_mem _ hp)
    have ha := h (a, amt) (List.mem_cons_self _ _)
    have b2 : ((("USDC" : String) == "FDUSD")) = false := by decide
    have b4 : ((("usdc_usdt" : String) == "fdusd_usdt")) = false := by decide
    have n1 : ¬ (("FDUSD" : String) = "USDT") := by decide
    have n2 : ¬ (("USDC" : String) = "USDT") := by decide
    have n3 : ¬ (("USDC" : String) = "FDUSD") := by decide
    by_cases hamt : 0 < amt
    · have hnle : ¬ amt ≤ 0 := not_le.mpr hamt
      rcases ha with hu | hu | hu
      · simp only [List.map_cons, portfolioLoop, calculate_total_value_usdt,
          hu, hamt, hnle, if_true, if_false, ite_true, ite_false, if_pos, if_neg,
          List.lookup, dictGet]
        rw [portfolioLoop_total_eq pf pu t rest _ _ hrest]
        ring
      · simp only [List.map_cons, portfolioLoop, calculate_total_value_usdt,
          hu, hamt, hnle, n1, if_true, if_false, ite_true, ite_false,
          List.lookup, dictGet]
        rw [portfolioLoop_total_eq pf pu t rest _ _ hrest]
        simp only [beq_self_eq_true, Option.getD_some]
        ring
      · simp only [List.map_cons, portfolioLoop, calculate_total_value_usdt,
          hu, hamt, hnle, n2, n3, b2, b4, if_true, if_false, ite_true, ite_false,
          List.lookup, dictGet]
        rw [portfolioLoop_total_eq pf pu t rest _ _ hrest]
        simp only [beq_self_eq_true, Option.getD_some]
        ring
    · have hle : amt ≤ 0 := not_lt.mp hamt
      simp only [List.map_cons, portfolioLoop, calculate_total_value_usdt,
        hamt, hle, if_true, if_false, ite_true, ite_false]
      rw [portfolioLoop_total_eq pf pu t rest _ _ hrest]
      ring

/-- C5 (amended): the calculator's valuation agrees with the base
adapter's shared portfolio valuation when the balances hold only the
stablecoins USDT, FDUSD and USDC and the two price tables carry the same
FDUSD and USDC prices under their respective key conventions; it differs
in general (see the counterexample). -/
theorem calc_total_matches_portfolio_valuer_on_stablecoins
    (bal : List (String × ℚ)) (pf pu : ℚ) (t now : DateTime)
    (h : ∀ p ∈ bal, strUpper p.1 = "USDT" ∨ strUpper p.1 = "FDUSD" ∨
      strUpper p.1 = "USDC") :
    calculate_total_value_usdt bal [("fdusd_usdt", pf), ("usdc_usdt", pu)] =
      (get_portfolio_value
          (bal.map (fun p =>
            { asset := p.1, free := p.2, locked := 0, total := p.2,
              timestamp := t }))
          [mkTicker "FDUSDUSDT" pf t, mkTicker "USDCUSDT" pu t]
          now).total_value_usdt := by
  have hprices : buildPrices [mkTicker "FDUSDUSDT" pf t, mkTicker "USDCUSDT" pu t] =
      [("FDUSD", pf), ("USDC", pu)] := by
    have e1 : strUpper "FDUSDUSDT" = "FDUSDUSDT" := by decide
    have e2 : strUpper "USDCUSDT" = "USDCUSDT" := by decide
    have e3 : strEndsWith "FDUSDUSDT" "USDT" = true := by decide
    have e4 : strEndsWith "USDCUSDT" "USDT" = true := by decide
    have e5 : strReplace "FDUSDUSDT" "USDT" "" = "FDUSD" := by decide
    have e6 : strReplace "USDCUSDT" "USDT" "" = "USDC" := by decide
    simp [buildPrices, mkTicker, e1, e2, e3, e4, e5, e6, dictSet]
  rw [get_portfolio_value, hprices]
  rw [portfolioLoop_total_eq pf pu t bal 0 [] h]
  norm_num

/-- Witness for C5 (amended): a concrete mixed stablecoin balance valued
identically by both implementations. -/
theorem calc_total_matches_portfolio_valuer_on_stablecoins_witness :
    calculate_total_value_usdt [("usdt", 5), ("FDUSD", 2), ("USDC", 3)]
        [("fdusd_usdt", 99 / 100), ("usdc_usdt", 101 / 100)] =
      (get_portfolio_value
          ([("usdt", (5 : ℚ)), ("FDUSD", 2), ("USDC", 3)].map (fun p =>
            { asset := p.1, free := p.2, locked := 0, total := p.2,
              timestamp := epoch }))
          [mkTicker "FDUSDUSDT" (99 / 100) epoch,
           mkTicker "USDCUSDT" (101 / 100) epoch]
          epoch).total_value_usdt :=
  calc_total_matches_portfolio_valuer_on_stablecoins
    [("usdt", 5), ("FDUSD", 2), ("USDC", 3)] (99 / 100) (101 / 100)
    epoch epoch (by decide)

/-- A PnL entry whose total value 5000 sits below the 10000 initial
capital. -/
def pnl5000 : PnLData :=
  { timestamp := epoch, total_value_usdt := 5000, binance_balance_usdt := 2500,
    htx_balance_usdt := 2500, daily_pnl := 0, daily_pnl_percent := 0,
    cumulative_pnl := -5000, cumulative_pnl_percent := -50 }

/-- Calculator state with the single entry pnl5000. -/
def stDrawdown : CalcState :=
  { mkArbitrageCalculator 10000 with pnl_history := [pnl5000] }

/-- Counterexample for C6: on the single-entry history whose value 5000
is below the initial capital 10000, get_performance_stats reports a max
drawdown of 50 percent, not 0. -/
theorem performance_stats_single_entry_drawdown_counterexample :
    (get_performance_stats stDrawdown epoch).map
        (fun s => s.max_drawdown_percent) = some 50 ∧
    (50 : ℚ) ≠ 0 := by
  constructor
  · have hmax : max (10000 : ℚ) 5000 = 10000 := by norm_num
    simp only [get_performance_stats, stDrawdown, pnl5000,
      mkArbitrageCalculator, maxDrawdownLoop, Option.map_some]
    norm_num
  · norm_num

/-- C6 (amended): get_performance_stats returns an empty result on an
empty history; on a single-entry history it returns a Sharpe ratio of 0
and a max drawdown of (max(initialCapital, v) - v) / max(initialCapital, v) × 100
for entry value v — which is 0 exactly when v is at least the initial
capital, not for every v. -/
theorem performance_stats_empty_and_single
    (st : CalcState) (p : PnLData) (now : DateTime) :
    (st.pnl_history = [] → get_performance_stats st now = none) ∧
    (st.pnl_history = [p] → 0 < st.initial_capital →
      (get_performance_stats st now).map (fun s => s.sharpe_ratio) = some 0 ∧
      (get_performance_stats st now).map (fun s => s.max_drawdown_percent) =
        some ((max st.initial_capital p.total_value_usdt - p.total_value_usdt) /
          max st.initial_capital p.total_value_usdt * 100) ∧
      ((max st.initial_capital p.total_value_usdt - p.total_value_usdt) /
          max st.initial_capital p.total_value_usdt * 100 = 0 ↔
        st.initial_capital ≤ p.total_value_usdt)) := by
  constructor
  · intro h
    simp [get_performance_stats, h]
  · intro h h0
    have hvle : p.total_value_usdt ≤ max st.initial_capital p.total_value_usdt :=
      le_max_right _ _
    have hmpos : 0 < max st.initial_capital p.total_value_usdt :=
      lt_of_lt_of_le h0 (le_max_left _ _)
    refine ⟨?_, ?_, ?_⟩
    · simp [get_performance_stats, h, dailyReturnsList, sharpe_ratio_of]
    · have hdd : 0 ≤ (max st.initial_capital p.total_value_usdt -
          p.total_value_usdt) / max st.initial_capital p.total_value_usdt * 100 := by
        have hnum : 0 ≤ max st.initial_capital p.total_value_usdt -
            p.total_value_usdt := sub_nonneg.mpr hvle
        positivity
      simp only [get_performance_stats, h, Option.map_some, maxDrawdownLoop,
        List.getLastD]
      rw [max_eq_right hdd]
      simp
    · constructor
      · intro hz
        rcases mul_eq_zero.mp hz with hz2 | hz2
        · rcases div_eq_zero_iff.mp hz2 with hz3 | hz3
          · have : max st.initial_capital p.total_value_usdt =
                p.total_value_usdt := by linarith [sub_eq_zero.mp hz3]
            exact max_eq_right_iff.mp this
          · exact absurd hz3 (ne_of_gt hmpos)
        · norm_num at hz2
      · intro hle
        have : max st.initial_capital p.total_value_usdt = p.total_value_usdt :=
          max_eq_right hle
        rw [this]
        simp

/-- A PnL entry whose total value 12000 exceeds the initial capital. -/
def pnl12000 : PnLData :=
  { timestamp := epoch, total_value_usdt := 12000, binance_balance_usdt := 6000,
    htx_balance_usdt := 6000, daily_pnl := 0, daily_pnl_percent := 0,
    cumulative_pnl := 2000, cumulative_pnl_percent := 20 }

/-- Calculator state with the single entry pnl12000. -/
def stSingleUp : CalcState :=
  { mkArbitrageCalculator 10000 with pnl_history := [pnl12000] }

/-- Witness for C6 (amended): on a single-entry history above the initial
capital, Sharpe is 0 and the drawdown formula applies (and equals 0). -/
theorem performance_stats_empty_and_single_witness :
    (get_performance_stats stSingleUp epoch).map (fun s => s.sharpe_ratio) =
      some 0 ∧
    (get_performance_stats stSingleUp epoch).map
        (fun s => s.max_drawdown_percent) =
      some ((max (10000 : ℚ) 12000 - 12000) / max (10000 : ℚ) 12000 * 100) ∧
    ((max (10000 : ℚ) 12000 - 12000) / max (10000 : ℚ) 12000 * 100 = 0 ↔
      (10000 : ℚ) ≤ 12000) := by
  have h := (performance_stats_empty_and_single stSingleUp pnl12000 epoch).2
    rfl (by norm_num [stSingleUp, mkArbitrageCalculator])
  exact ⟨h.1, h.2.1, h.2.2⟩

/-- A fetch_balance response whose total entry (5) differs from its free
plus used entries (1 + 0). -/
def respInconsistent : BalanceResponse :=
  { total := [("BTC", 5)], free := [("BTC", 1)], used := [("BTC", 0)] }

/-- Counterexample for C7: get_account_balance copies the response's
total field verbatim, so an inconsistent response yields a Balance whose
total (5) is not free + locked (1 + 0); nothing at construction enforces
the invariant. -/
theorem balance_total_not_enforced_counterexample :
    get_account_balance (.ok respInconsistent) epoch =
      [{ asset := "BTC", free := 1, locked := 0, total := 5,
         timestamp := epoch }] ∧
    ¬ ((5 : ℚ) = 1 + 0) := by
  constructor
  · decide
  · norm_num

/-- C7 (amended): a Balance built by get_account_balance satisfies
total = free + locked exactly when the underlying response is itself
consistent (each asset's total entry equals its free plus used entries);
the equality is inherited from the response data, not enforced at
construction. -/
theorem balance_total_under_consistent_response
    (resp : BalanceResponse) (now : DateTime) (b : Balance)
    (hresp : ∀ p ∈ resp.total,
      p.2 = dictGet resp.free p.1 0 + dictGet resp.used p.1 0)
    (hb : b ∈ get_account_balance (.ok resp) now) :
    b.total = b.free + b.locked := by
  simp only [get_account_balance, List.mem_filterMap] at hb
  obtain ⟨p, hp, hpb⟩ := hb
  by_cases hpos : 0 < p.2
  · rw [if_pos hpos] at hpb
    obtain rfl := Option.some.inj hpb
    simpa using hresp p hp
  · rw [if_neg hpos] at hpb
    exact absurd hpb (by simp)

/-- A consistent fetch_balance response: total 5 equals free 2 plus
used 3. -/
def respConsistent : BalanceResponse :=
  { total := [("BTC", 5)], free := [("BTC", 2)], used := [("BTC", 3)] }

/-- Witness for C7 (amended): the Balance built from a consistent
response satisfies total = free + locked. -/
theorem balance_total_under_consistent_response_witness :
    ({ asset := "BTC", free := 2, locked := 3, total := 5,
       timestamp := epoch } : Balance).total =
      ({ asset := "BTC", free := 2, locked := 3, total := 5,
         timestamp := epoch } : Balance).free +
        ({ asset := "BTC", free := 2, locked := 3, total := 5,
           timestamp := epoch } : Balance).locked :=
  balance_total_under_consistent_response respConsistent epoch
    { asset := "BTC", free := 2, locked := 3, total := 5, timestamp := epoch }
    (by intro p hp; fin_cases hp <;> norm_num [dictGet, respConsistent, List.lookup])
    (by decide)

/-- Counterexample for C8: on a transport or auth failure,
get_account_balance returns the ordinary value [] rather than an error —
indistinguishable from a successful call on an empty account. -/
theorem get_account_balance_failure_counterexample :
    get_account_balance (.error ()) epoch = [] ∧
    get_account_balance (.ok { total := [], free := [], used := [] }) epoch
      = [] := by
  exact ⟨rfl, rfl⟩

/-- C8 (amended): on transport or auth failure get_account_balance
catches the exception and returns an empty list (a normal return, not an
AdapterError); on success every returned Balance has total > 0. -/
theorem get_account_balance_amended :
    (∀ now, get_account_balance (.error ()) now = []) ∧
    (∀ resp now b, b ∈ get_account_balance (.ok resp) now →
      0 < b.total) := by
  constructor
  · intro now
    rfl
  · intro resp now b hb
    simp only [get_account_balance, List.mem_filterMap] at hb
    obtain ⟨p, hp, hpb⟩ := hb
    by_cases hpos : 0 < p.2
    · rw [if_pos hpos] at hpb
      obtain rfl := Option.some.inj hpb
      simpa using hpos
    · rw [if_neg hpos] at hpb
      exact absurd hpb (by simp)

/-- Witness for C8 (amended): a balance returned for a positive total
entry indeed has positive total. -/
theorem get_account_balance_amended_witness :
    (0 : ℚ) <
      ({ asset := "BTC", free := 2, locked := 3, total := 5,
         timestamp := epoch } : Balance).total :=
  get_account_balance_amended.2 respConsistent epoch
    { asset := "BTC", free := 2, locked := 3, total := 5, timestamp := epoch }
    (by decide)

end SCOA
